import Mathlib

/-!
Shallow embedding of the streaming / dispatch / store layer of the Friday
conversational client, with theorems checking the natural-language
specification against the code.

The source is TypeScript.  Strings are modelled as Lean `String`
(a wrapper around `List Char`); the JavaScript string primitives used by
the code (`split('\n')`, `startsWith`, `slice`, `trim`, `toLowerCase`,
`includes`) are given explicit list-based models below.  `JSON.parse` is
an external library call and is modelled as an oracle
`parse : String → Option JsonObj`; failure (`none`) corresponds to the
exception caught by the surrounding try/catch, and `JsonObj` records the
fields the code reads (`text`, `content`, `response`, `assistant_id`,
`thread_id`), with JavaScript truthiness of a field modelled by
`truthyStr`.
-/

namespace Friday

/-- Characters treated as whitespace by the model of `String.prototype.trim`. -/
def isSpaceChar (c : Char) : Bool :=
  c == ' ' || c == '\t' || c == '\n' || c == '\r'

/-- Trim leading and trailing whitespace from a character list. -/
def trimChars (l : List Char) : List Char :=
  ((l.dropWhile isSpaceChar).reverse.dropWhile isSpaceChar).reverse

/-- Model of JavaScript `s.trim()`. -/
def jsTrim (s : String) : String := ⟨trimChars s.data⟩

/-- Does the character list `s` begin with the character list `pat`? -/
def startsList : List Char → List Char → Bool
  | [], _ => true
  | _ :: _, [] => false
  | p :: ps, c :: cs => p == c && startsList ps cs

/-- Model of JavaScript `s.startsWith(pat)`. -/
def jsStartsWith (s pat : String) : Bool := startsList pat.data s.data

/-- Model of JavaScript `s.slice(n)` (drop the first `n` characters). -/
def jsSlice (s : String) (n : Nat) : String := ⟨s.data.drop n⟩

/-- Split a character list at every occurrence of `sep`, mirroring
JavaScript `split` with a one-character separator (keeps empty segments). -/
def splitChar (sep : Char) : List Char → List (List Char)
  | [] => [[]]
  | c :: rest =>
    match splitChar sep rest with
    | [] => if c == sep then [[], []] else [[c]]
    | h :: t => if c == sep then [] :: h :: t else (c :: h) :: t

/-- Model of JavaScript `chunk.split('\n')`. -/
def jsSplitLines (s : String) : List String :=
  (splitChar '\n' s.data).map (fun l => ⟨l⟩)

/-- Does `s` contain `pat` as a contiguous segment?  Model of JavaScript
`s.includes(pat)`. -/
def containsSeg : List Char → List Char → Bool
  | p, [] => startsList p []
  | p, c :: cs => startsList p (c :: cs) || containsSeg p cs

/-- Model of JavaScript `s.includes(pat)`. -/
def jsIncludes (s pat : String) : Bool := containsSeg pat.data s.data

/-- Model of JavaScript `s.toLowerCase()` (ASCII range, which covers every
string the code compares). -/
def jsToLower (s : String) : String := ⟨s.data.map Char.toLower⟩

/-- The JSON fields read by the two stream decoders.  A field that is
absent in the payload is `none`. -/
structure JsonObj where
  text : Option String := none
  content : Option String := none
  response : Option String := none
  assistant_id : Option String := none
  thread_id : Option String := none
deriving DecidableEq, Repr

/-- JavaScript truthiness of an optional string field: present and
non-empty. -/
def truthyStr : Option String → Bool
  | none => false
  | some s => !s.data.isEmpty

/-- Model of `data.text || data.content || data.response`: the first
truthy field in the fixed priority order, if any. -/
def firstTextField (d : JsonObj) : Option String :=
  if truthyStr d.text then d.text
  else if truthyStr d.content then d.content
  else if truthyStr d.response then d.response
  else none

/-! ### sendMessageStream (plain-chat stream decoder, src part_003 lines 13-67)

State of the decoding loop: the `accumulatedText` variable, together with
the chronological list of snapshots passed to the `onChunk` callback. -/

structure ChatStreamState where
  accumulatedText : String
  emits : List String
deriving DecidableEq, Repr

/-- One line of the `sendMessageStream` loop: only `data: `-prefixed lines
whose payload parses and has a truthy `text` field contribute; every other
line (including lines whose payload fails to parse) is dropped. -/
def chatProcessLine (parse : String → Option JsonObj) (st : ChatStreamState)
    (line : String) : ChatStreamState :=
  if jsStartsWith line "data: " then
    match parse (jsSlice line 6) with
    | some d =>
      if truthyStr d.text then
        let acc := st.accumulatedText ++ (d.text.getD "")
        { accumulatedText := acc, emits := st.emits ++ [acc] }
      else st
    | none => st
  else st

/-- One chunk of the `sendMessageStream` loop: split on newlines, process
each line in order. -/
def chatProcessChunk (parse : String → Option JsonObj) (st : ChatStreamState)
    (chunk : String) : ChatStreamState :=
  (jsSplitLines chunk).foldl (chatProcessLine parse) st

/-- The whole `sendMessageStream` read loop over the arriving chunks. -/
def sendMessageStreamRun (parse : String → Option JsonObj)
    (chunks : List String) : ChatStreamState :=
  chunks.foldl (chatProcessChunk parse) { accumulatedText := "", emits := [] }

/-- `sendMessageStream` returns the accumulated text at end-of-data; there
is no emptiness guard in the source. -/
def sendMessageStream (parse : String → Option JsonObj)
    (chunks : List String) : String :=
  (sendMessageStreamRun parse chunks).accumulatedText

/-! ### ragQueryStream (document-QA stream decoder, src part_003 lines 187-304) -/

structure RagStreamState where
  accumulatedText : String
  receivedData : Bool
  emits : List String
  assistantIdEvents : List String
  threadIdEvents : List String
deriving DecidableEq, Repr

/-- Initial state of the `ragQueryStream` loop. -/
def ragInit : RagStreamState :=
  { accumulatedText := "", receivedData := false, emits := [],
    assistantIdEvents := [], threadIdEvents := [] }

/-- Append a text delta: extend the accumulator, set `receivedData` and
call `onChunk` with the new cumulative value. -/
def ragAppendText (st : RagStreamState) (t : String) : RagStreamState :=
  let acc := st.accumulatedText ++ t
  { st with accumulatedText := acc, receivedData := true,
            emits := st.emits ++ [acc] }

/-- The metadata handling of a parsed payload: `assistant_id` and
`thread_id` callbacks. -/
def ragHandleMeta (st : RagStreamState) (d : JsonObj) : RagStreamState :=
  let st1 := if truthyStr d.assistant_id then
               { st with assistantIdEvents :=
                   st.assistantIdEvents ++ [d.assistant_id.getD ""] }
             else st
  if truthyStr d.thread_id then
    { st1 with threadIdEvents := st1.threadIdEvents ++ [d.thread_id.getD ""] }
  else st1

/-- Handling of a successfully parsed payload object: append the first
truthy text field (if any), then the metadata callbacks. -/
def ragHandleDataObj (st : RagStreamState) (d : JsonObj) : RagStreamState :=
  let st1 := match firstTextField d with
    | some t => ragAppendText st t
    | none => st
  ragHandleMeta st1 d

/-- The `for (const line of lines)` loop body of `ragQueryStream`.
Reaching the `[DONE]` sentinel executes `break`, which abandons the
remaining lines of the **current** chunk only. -/
def ragProcessLines (parse : String → Option JsonObj) :
    RagStreamState → List String → RagStreamState
  | st, [] => st
  | st, line :: rest =>
    if jsTrim line == "" then ragProcessLines parse st rest
    else if jsStartsWith line "data: " then
      let jsonData := jsTrim (jsSlice line 6)
      if jsonData == "[DONE]" then st
      else
        match parse jsonData with
        | some d => ragProcessLines parse (ragHandleDataObj st d) rest
        | none =>
          let rawText := jsonData
          let st1 := if !(rawText == "") && !(rawText == "[DONE]") then
                       ragAppendText st rawText
                     else st
          ragProcessLines parse st1 rest
    else
      match parse line with
      | some d =>
        let st1 := match firstTextField d with
          | some t => ragAppendText st t
          | none => st
        ragProcessLines parse st1 rest
      | none => ragProcessLines parse (ragAppendText st line) rest

/-- One chunk of the `ragQueryStream` read loop. -/
def ragProcessChunk (parse : String → Option JsonObj) (st : RagStreamState)
    (chunk : String) : RagStreamState :=
  ragProcessLines parse st (jsSplitLines chunk)

/-- The whole `ragQueryStream` read loop over the arriving chunks. -/
def ragQueryStreamRun (parse : String → Option JsonObj)
    (chunks : List String) : RagStreamState :=
  chunks.foldl (ragProcessChunk parse) ragInit

/-- `ragQueryStream`: after end-of-data, throw if `receivedData` was never
set, otherwise return the accumulated text. -/
def ragQueryStream (parse : String → Option JsonObj)
    (chunks : List String) : Except String String :=
  let st := ragQueryStreamRun parse chunks
  if st.receivedData then Except.ok st.accumulatedText
  else Except.error "No response data received from server"

/-! ### Conversation store (src part_001) and chat-input dispatcher (src part_004)

Timestamps (`Date.now()`, `new Date()`) are modelled by a `Nat` supplied
by the caller; message ids are derived from it exactly as the source
derives them from `Date.now()`. -/

inductive Role
  | user
  | assistant
deriving DecidableEq, Repr

inductive ErrorType
  | network
  | timeout
  | server
  | client
  | unknown
deriving DecidableEq, Repr

/-- One turn of a conversation.  Optional boolean flags of the source are
modelled as `Bool` with default `false` (JavaScript `undefined` is falsy). -/
structure Message where
  role : Role
  content : String
  isNew : Bool := false
  isThinking : Bool := false
  isError : Bool := false
  errorType : Option ErrorType := none
  timestamp : Nat
  id : String
deriving DecidableEq, Repr

/-- A conversation; the bound `document` (a `File` in the source) is
modelled by its name. -/
structure Conversation where
  id : String
  title : String
  messages : List Message
  document : Option String := none
deriving DecidableEq, Repr

/-- The error heuristic of `handleMessageSent` (src part_001 lines 110-112):
the response is classified as an error when its lowercase form contains one
of three fixed phrases. -/
def isErrorResponse (aiResponse : String) : Bool :=
  jsIncludes (jsToLower aiResponse) "sorry, i encountered an error" ||
  jsIncludes (jsToLower aiResponse) "failed to" ||
  jsIncludes (jsToLower aiResponse) "error occurred"

/-- The record update applied to the targeted assistant message
(src part_001 lines 114-121). -/
def appliedUpdate (m : Message) (aiResponse : String) : Message :=
  { m with content := aiResponse, isThinking := false, isNew := false,
           isError := isErrorResponse aiResponse,
           errorType := if isErrorResponse aiResponse then some ErrorType.server
                        else none }

/-- Is there an assistant message strictly after index `i`?  Mirrors
`conv.messages.slice(index + 1).some(m => m.role === 'assistant')`. -/
def noAssistantAfter (msgs : List Message) (i : Nat) : Bool :=
  !((msgs.drop (i + 1)).any (fun m => m.role == Role.assistant))

/-- The `isLastAssistantMessage` test and conditional update of
`handleMessageSent` (src part_001 lines 101-123), for the message at
absolute index `i` of `msgs`. -/
def updateMessageAt (aiResponse : String) (msgs : List Message) (i : Nat)
    (m : Message) : Message :=
  if m.role == Role.assistant &&
     (i == msgs.length - 1 || noAssistantAfter msgs i) then
    appliedUpdate m aiResponse
  else m

/-- Index-tracking map over the messages, mirroring
`conv.messages.map((msg, index) => ...)`. -/
def updateMessagesFrom (aiResponse : String) (msgs : List Message) :
    Nat → List Message → List Message
  | _, [] => []
  | i, m :: rest =>
    updateMessageAt aiResponse msgs i m ::
      updateMessagesFrom aiResponse msgs (i + 1) rest

/-- The per-conversation message update of `handleMessageSent`. -/
def updateConversationMessages (aiResponse : String)
    (msgs : List Message) : List Message :=
  updateMessagesFrom aiResponse msgs 0 msgs

/-- The target-conversation test (src part_001 lines 96-97):
`conv.id === currentConversationId || (currentConversationId === null &&
prevConvs.length === 1)`. -/
def isTargetConversation (currentConversationId : Option String)
    (convs : List Conversation) (conv : Conversation) : Bool :=
  currentConversationId == some conv.id ||
  (currentConversationId == none && convs.length == 1)

/-- The `isUpdate = true` branch of `handleMessageSent`
(src part_001 lines 92-140): one store update that rewrites the last
assistant message of the target conversation. -/
def handleMessageSentUpdate (currentConversationId : Option String)
    (convs : List Conversation) (aiResponse : String) : List Conversation :=
  convs.map (fun conv =>
    if isTargetConversation currentConversationId convs conv then
      { conv with messages := updateConversationMessages aiResponse conv.messages }
    else conv)

/-- The thinking-placeholder sentinel tested by `handleMessageSent`
(src part_001 line 143) and passed by `handleRetryMessage`
(src part_001 line 297). -/
def thinkingSentinel : String := "Unico AI is thinking..."

/-- The placeholder text actually passed by `ChatInput.handleSubmit`
(src part_004 line 77). -/
def fridayThinking : String := "Friday is thinking..."

/-- The title derivation for a new conversation (src part_001 line 182):
`userMessage.slice(0, 20) + (userMessage.length > 20 ? '...' : '')`. -/
def deriveTitle (userMessage : String) : String :=
  (⟨userMessage.data.take 20⟩ : String) ++
  (if 20 < userMessage.data.length then "..." else "")

/-- The two messages appended by the `isUpdate = false` branch of
`handleMessageSent` (src part_001 lines 150-166); `now` models
`Date.now()`. -/
def newPairMessages (userMessage aiResponse : String) (now : Nat) :
    List Message :=
  [ { role := Role.user, content := userMessage, isNew := true,
      timestamp := now, id := "user-" ++ toString now },
    { role := Role.assistant, content := aiResponse,
      isThinking := aiResponse == thinkingSentinel,
      timestamp := now + 1, id := "assistant-" ++ toString now } ]

/-- The `isUpdate = false` branch of `handleMessageSent`
(src part_001 lines 141-193): append the user+assistant pair to the
current conversation, or create a new conversation holding the pair.
Returns the new conversation list and the new current-conversation id. -/
def handleMessageSentAppend (currentConversationId : Option String)
    (convs : List Conversation) (userMessage aiResponse : String)
    (now : Nat) : List Conversation × Option String :=
  let newMessages := newPairMessages userMessage aiResponse now
  match currentConversationId with
  | some cid =>
    (convs.map (fun conv =>
       if conv.id == cid then
         { conv with messages := conv.messages ++ newMessages }
       else conv),
     some cid)
  | none =>
    let newConversationId := toString now
    (({ id := newConversationId, title := deriveTitle userMessage,
        messages := newMessages, document := none } : Conversation) :: convs,
     some newConversationId)

/-! ### Tool dispatch (src part_004 `handleSubmit`) -/

inductive Tool
  | chat
  | deepSearch
  | markdown
deriving DecidableEq, Repr

/-- The remote operations a submission can invoke. -/
inductive ApiCall
  | ragStream (question : String) (file : String)
  | search (q : String)
  | chat (message : String)
deriving DecidableEq, Repr

/-- The fixed instruction template of markdown mode
(src part_004 line 121). -/
def markdownTemplate (userMessage : String) : String :=
  "Convert the following text to well-formatted markdown: " ++ userMessage

/-- The operation selection of `handleSubmit` (src part_004 lines 81-140):
`documentToUse = attachedFile || conversationDocument`; a document forces
the document-QA stream, otherwise the selected tool decides. -/
def dispatchCall (attachedFile conversationDocument : Option String)
    (selectedTool : Tool) (userMessage : String) : ApiCall :=
  match attachedFile with
  | some f => ApiCall.ragStream userMessage f
  | none =>
    match conversationDocument with
    | some f => ApiCall.ragStream userMessage f
    | none =>
      match selectedTool with
      | Tool.deepSearch => ApiCall.search userMessage
      | Tool.markdown => ApiCall.chat (markdownTemplate userMessage)
      | Tool.chat => ApiCall.chat userMessage

/-- Observable trace of one `handleSubmit` run: the store state right
after the synchronous placeholder append, and the remote operations then
started, in order. -/
structure SubmitTrace where
  storeAfterAppend : List Conversation
  currentIdAfterAppend : Option String
  calls : List ApiCall
deriving DecidableEq, Repr

/-- The synchronous prelude and dispatch of `handleSubmit`
(src part_004 lines 68-143): guard on empty input or an in-flight stream,
append the user message and the `fridayThinking` placeholder as one store
update, then start exactly one remote operation.  `none` models the early
`return`. -/
def handleSubmit (message : String) (isStreaming : Bool)
    (attachedFile conversationDocument : Option String) (selectedTool : Tool)
    (convs : List Conversation) (currentConversationId : Option String)
    (now : Nat) : Option SubmitTrace :=
  if jsTrim message == "" || isStreaming then none
  else
    let appended := handleMessageSentAppend currentConversationId convs
                      message fridayThinking now
    some { storeAfterAppend := appended.1,
           currentIdAfterAppend := appended.2,
           calls := [dispatchCall attachedFile conversationDocument
                       selectedTool message] }

/-- `handleRetryMessage` (src part_001 lines 284-300): look up the clicked
assistant message, take the user message right before it, and call
`handleMessageSent(userMessage.content, "Unico AI is thinking...", false)`.
The handler performs no remote call, which the always-empty `ApiCall` list
of the result records. -/
def handleRetryMessage (convs : List Conversation)
    (currentConversationId : Option String) (messageId : String)
    (now : Nat) : List Conversation × Option String × List ApiCall :=
  match currentConversationId with
  | none => (convs, currentConversationId, [])
  | some cid =>
    match convs.find? (fun c => c.id == cid) with
    | none => (convs, currentConversationId, [])
    | some conv =>
      match conv.messages.findIdx? (fun m => m.id == messageId) with
      | none => (convs, currentConversationId, [])
      | some i =>
        match conv.messages[i]? with
        | none => (convs, currentConversationId, [])
        | some m =>
          if m.role == Role.assistant then
            match (if i == 0 then none else conv.messages[i - 1]?) with
            | some um =>
              if um.role == Role.user then
                let r := handleMessageSentAppend currentConversationId convs
                           um.content thinkingSentinel now
                (r.1, r.2, [])
              else (convs, currentConversationId, [])
            | none => (convs, currentConversationId, [])
          else (convs, currentConversationId, [])

/-- The onChunk wiring of a streaming submission (src part_004 lines
91-93): every decoded snapshot is passed to `onMessageSent(_, _, true)`,
i.e. exactly one store update per snapshot, applied in emission order. -/
def streamUpdatesFold (currentConversationId : Option String)
    (convs : List Conversation) (snaps : List String) : List Conversation :=
  snaps.foldl (handleMessageSentUpdate currentConversationId) convs

/-! ### Persistence (src part_002 `usePersistentStorage`)

The save effect runs on every conversation-list change once the initial
load has completed; `writeOk` models whether `localStorage.setItem`
succeeds on a given list (it throws on quota exhaustion).  The result is
the list that ended up persisted, or `none` when both attempts failed and
the failure was swallowed. -/

def MAX_CONVERSATIONS : Nat := 50

/-- The list serialized by the first save attempt (src part_002 lines
54-58): at most `MAX_CONVERSATIONS` conversations, `document` nulled. -/
def conversationsToSave (convs : List Conversation) : List Conversation :=
  (convs.take MAX_CONVERSATIONS).map (fun conv => { conv with document := none })

/-- The list serialized by the fallback attempt (src part_002 line 65):
`conversations.slice(0, MAX_CONVERSATIONS / 2)` — note: no document
stripping here. -/
def reducedConversations (convs : List Conversation) : List Conversation :=
  convs.take (MAX_CONVERSATIONS / 2)

/-- The save effect with its two-level try/catch
(src part_002 lines 49-71). -/
def persistSave (writeOk : List Conversation → Bool)
    (convs : List Conversation) : Option (List Conversation) :=
  let toSave := conversationsToSave convs
  if writeOk toSave then some toSave
  else
    let reduced := reducedConversations convs
    if writeOk reduced then some reduced else none

/-! ### Theorems -/

/-- The emitted snapshots form a chain in which each snapshot extends its
predecessor as a string prefix. -/
def snapshotChain (l : List String) : Prop :=
  List.Chain' (fun a b => a.data <+: b.data) l

/-- Loop invariant shared by both decoders: the snapshots emitted so far
form a prefix chain, and the last of them is a prefix of the current
accumulator. -/
def emitsInv (emits : List String) (acc : String) : Prop :=
  snapshotChain emits ∧ ∀ x, emits.getLast? = some x → x.data <+: acc.data

lemma data_append (a b : String) : (a ++ b).data = a.data ++ b.data := rfl

lemma emitsInv_append {emits : List String} {acc : String} (t : String)
    (h : emitsInv emits acc) : emitsInv (emits ++ [acc ++ t]) (acc ++ t) := by
  constructor
  · refine List.chain'_append.2 ⟨h.1, List.chain'_singleton _, ?_⟩
    intro x hx y hy
    simp only [List.head?_cons, Option.mem_def, Option.some.injEq] at hy
    subst hy
    exact (h.2 x hx).trans (by rw [data_append]; exact List.prefix_append _ _)
  · intro x hx
    rw [List.getLast?_concat] at hx
    cases hx
    exact List.prefix_refl _

lemma emitsInv_init : emitsInv [] "" := by
  exact ⟨List.chain'_nil, fun x hx => by cases hx⟩

theorem foldl_preserve {α σ : Type} {P : σ → Prop} {f : σ → α → σ}
    (hf : ∀ s a, P s → P (f s a)) :
    ∀ (l : List α) (s : σ), P s → P (List.foldl f s l)
  | [], _, h => h
  | a :: l, s, h => foldl_preserve hf l (f s a) (hf s a h)

lemma chatProcessLine_inv (parse : String → Option JsonObj)
    (st : ChatStreamState) (line : String)
    (h : emitsInv st.emits st.accumulatedText) :
    emitsInv (chatProcessLine parse st line).emits
             (chatProcessLine parse st line).accumulatedText := by
  unfold chatProcessLine
  split
  · split
    · split
      · exact emitsInv_append _ h
      · exact h
    · exact h
  · exact h

lemma chatRun_inv (parse : String → Option JsonObj) (chunks : List String) :
    emitsInv (sendMessageStreamRun parse chunks).emits
             (sendMessageStreamRun parse chunks).accumulatedText := by
  refine foldl_preserve
    (P := fun s : ChatStreamState => emitsInv s.emits s.accumulatedText)
    (fun s c hs => ?_) chunks _ emitsInv_init
  exact foldl_preserve
    (P := fun s : ChatStreamState => emitsInv s.emits s.accumulatedText)
    (fun s' l hs' => chatProcessLine_inv parse s' l hs')
    (jsSplitLines c) s hs

lemma ragAppendText_emits (st : RagStreamState) (t : String) :
    (ragAppendText st t).emits = st.emits ++ [st.accumulatedText ++ t] := rfl

lemma ragAppendText_acc (st : RagStreamState) (t : String) :
    (ragAppendText st t).accumulatedText = st.accumulatedText ++ t := rfl

lemma ragAppendText_inv {st : RagStreamState} (t : String)
    (h : emitsInv st.emits st.accumulatedText) :
    emitsInv (ragAppendText st t).emits (ragAppendText st t).accumulatedText :=
  emitsInv_append t h

lemma ragHandleMeta_emits (st : RagStreamState) (d : JsonObj) :
    (ragHandleMeta st d).emits = st.emits := by
  unfold ragHandleMeta
  split <;> split <;> rfl

lemma ragHandleMeta_acc (st : RagStreamState) (d : JsonObj) :
    (ragHandleMeta st d).accumulatedText = st.accumulatedText := by
  unfold ragHandleMeta
  split <;> split <;> rfl

lemma ragHandleDataObj_inv {st : RagStreamState} (d : JsonObj)
    (h : emitsInv st.emits st.accumulatedText) :
    emitsInv (ragHandleDataObj st d).emits
             (ragHandleDataObj st d).accumulatedText := by
  unfold ragHandleDataObj
  cases hft : firstTextField d with
  | some t =>
    simp only [ragHandleMeta_emits, ragHandleMeta_acc]
    exact ragAppendText_inv t h
  | none =>
    simp only [ragHandleMeta_emits, ragHandleMeta_acc]
    exact h

lemma ragProcessLines_inv (parse : String → Option JsonObj) :
    ∀ (lines : List String) (st : RagStreamState),
      emitsInv st.emits st.accumulatedText →
      emitsInv (ragProcessLines parse st lines).emits
               (ragProcessLines parse st lines).accumulatedText := by
  intro lines
  induction lines with
  | nil => intro st h; exact h
  | cons line rest ih =>
    intro st h
    simp only [ragProcessLines]
    split
    · exact ih st h
    · split
      · split
        · exact h
        · split
          · exact ih _ (ragHandleDataObj_inv _ h)
          · split
            · exact ih _ (ragAppendText_inv _ h)
            · exact ih _ h
      · split
        · split
          · exact ih _ (ragAppendText_inv _ h)
          · exact ih _ h
        · exact ih _ (ragAppendText_inv _ h)

lemma ragRun_inv (parse : String → Option JsonObj) (chunks : List String) :
    emitsInv (ragQueryStreamRun parse chunks).emits
             (ragQueryStreamRun parse chunks).accumulatedText := by
  refine foldl_preserve
    (P := fun s : RagStreamState => emitsInv s.emits s.accumulatedText)
    (fun s c hs => ?_) chunks _ emitsInv_init
  exact ragProcessLines_inv parse (jsSplitLines c) s hs

/-- C1: for every parse oracle and every sequence of decoded chunks, the
snapshots passed to the update callback by either streaming operation form
a prefix chain (each snapshot is a prefix-extension of the previous one),
so their lengths are non-decreasing; the chronological emit list itself
witnesses that no snapshot is delivered out of arrival order. -/
theorem c1_stream_snapshots_prefix_monotone (parse : String → Option JsonObj)
    (chunks : List String) :
    snapshotChain (sendMessageStreamRun parse chunks).emits
  ∧ snapshotChain (ragQueryStreamRun parse chunks).emits
  ∧ List.Chain' (fun a b => a.data.length ≤ b.data.length)
      (sendMessageStreamRun parse chunks).emits
  ∧ List.Chain' (fun a b => a.data.length ≤ b.data.length)
      (ragQueryStreamRun parse chunks).emits := by
  have h1 := chatRun_inv parse chunks
  have h2 := ragRun_inv parse chunks
  refine ⟨h1.1, h2.1, ?_, ?_⟩
  · exact List.Chain'.imp (fun a b hp => hp.length_le) h1.1
  · exact List.Chain'.imp (fun a b hp => hp.length_le) h2.1

/-! Invariant tying `receivedData` to the emitted snapshots: the flag is
set exactly when at least one delta has been appended (and hence emitted). -/

def ragDataInvP (st : RagStreamState) : Prop :=
  st.receivedData = !st.emits.isEmpty

lemma ragHandleMeta_received (st : RagStreamState) (d : JsonObj) :
    (ragHandleMeta st d).receivedData = st.receivedData := by
  unfold ragHandleMeta
  split <;> split <;> rfl

lemma ragAppendText_dataInv (st : RagStreamState) (t : String) :
    ragDataInvP (ragAppendText st t) := by
  simp [ragDataInvP, ragAppendText]

lemma ragHandleDataObj_dataInv (st : RagStreamState) (d : JsonObj)
    (h : ragDataInvP st) : ragDataInvP (ragHandleDataObj st d) := by
  unfold ragHandleDataObj
  cases hft : firstTextField d with
  | some t =>
    simp only [ragDataInvP, ragHandleMeta_received, ragHandleMeta_emits]
    exact ragAppendText_dataInv st t
  | none =>
    simp only [ragDataInvP, ragHandleMeta_received, ragHandleMeta_emits]
    exact h

lemma ragProcessLines_dataInv (parse : String → Option JsonObj) :
    ∀ (lines : List String) (st : RagStreamState),
      ragDataInvP st → ragDataInvP (ragProcessLines parse st lines) := by
  intro lines
  induction lines with
  | nil => intro st h; exact h
  | cons line rest ih =>
    intro st h
    simp only [ragProcessLines]
    split
    · exact ih st h
    · split
      · split
        · exact h
        · split
          · exact ih _ (ragHandleDataObj_dataInv _ _ h)
          · split
            · exact ih _ (ragAppendText_dataInv _ _)
            · exact ih _ h
      · split
        · split
          · exact ih _ (ragAppendText_dataInv _ _)
          · exact ih _ h
        · exact ih _ (ragAppendText_dataInv _ _)

lemma ragRun_dataInv (parse : String → Option JsonObj) (chunks : List String) :
    ragDataInvP (ragQueryStreamRun parse chunks) := by
  refine foldl_preserve (P := ragDataInvP) (fun s c hs => ?_) chunks _ rfl
  exact ragProcessLines_dataInv parse (jsSplitLines c) s hs

lemma chatProcessLine_empty (parse : String → Option JsonObj)
    (st : ChatStreamState) (line : String)
    (h : st.emits = [] → st.accumulatedText = "") :
    (chatProcessLine parse st line).emits = [] →
    (chatProcessLine parse st line).accumulatedText = "" := by
  unfold chatProcessLine
  split
  · split
    · split
      · intro hc; simp at hc
      · exact h
    · exact h
  · exact h

lemma chatRun_empty (parse : String → Option JsonObj) (chunks : List String) :
    (sendMessageStreamRun parse chunks).emits = [] →
    (sendMessageStreamRun parse chunks).accumulatedText = "" := by
  refine foldl_preserve
    (P := fun s : ChatStreamState => s.emits = [] → s.accumulatedText = "")
    (fun s c hs => ?_) chunks _ (fun _ => rfl)
  exact foldl_preserve
    (P := fun s : ChatStreamState => s.emits = [] → s.accumulatedText = "")
    (fun s' l hs' => chatProcessLine_empty parse s' l hs')
    (jsSplitLines c) s hs

/-- C4 counterexample: the plain-chat stream decoder reaches end-of-data
having emitted zero deltas and returns successfully with empty content —
it has no empty-response failure at all, contradicting the claim that both
streaming operations fail in that situation. -/
theorem c4_counterexample :
    sendMessageStreamRun (fun _ => none) []
      = { accumulatedText := "", emits := [] }
  ∧ sendMessageStream (fun _ => none) [] = "" := ⟨rfl, rfl⟩

/-- C4 amended: only the document-QA stream (`ragQueryStream`) fails with
the empty-response error when end-of-data arrives with zero deltas
emitted (and succeeds with the accumulated text otherwise); the plain-chat
stream decoder (`sendMessageStream`) has no such guard and returns empty
content. -/
theorem c4_amended_empty_stream_guard (parse : String → Option JsonObj)
    (chunks : List String) :
    ((ragQueryStreamRun parse chunks).emits = [] →
        ragQueryStream parse chunks
          = Except.error "No response data received from server")
  ∧ ((ragQueryStreamRun parse chunks).emits ≠ [] →
        ragQueryStream parse chunks
          = Except.ok (ragQueryStreamRun parse chunks).accumulatedText)
  ∧ ((sendMessageStreamRun parse chunks).emits = [] →
        sendMessageStream parse chunks = "") := by
  have hd := ragRun_dataInv parse chunks
  unfold ragDataInvP at hd
  refine ⟨?_, ?_, fun h => chatRun_empty parse chunks h⟩
  · intro he
    unfold ragQueryStream
    rw [if_neg]
    simp [hd, he]
  · intro he
    unfold ragQueryStream
    rw [if_pos]
    simp [hd, List.isEmpty_iff, he]

/-- Witness for the amended C4 at concrete inputs: an empty document-QA
stream fails with the empty-response error, and a plain-chat stream whose
only line fails to decode returns empty text without error. -/
theorem c4_amended_witness :
    ragQueryStream (fun _ => none) []
      = Except.error "No response data received from server"
  ∧ sendMessageStream (fun _ => none) ["data: oops"] = "" := by
  refine ⟨(c4_amended_empty_stream_guard (fun _ => none) []).1 rfl,
          (c4_amended_empty_stream_guard (fun _ => none) ["data: oops"]).2.2
            (by decide)⟩

/-- C7 counterexample: the plain-chat stream decoder receives the complete
event-data line `data: hello` whose payload fails structured decoding, and
drops it — nothing is appended and no snapshot is emitted, contradicting
the claim that both decoders append the stripped remainder verbatim. -/
theorem c7_counterexample :
    sendMessageStreamRun (fun _ => none) ["data: hello"]
      = { accumulatedText := "", emits := [] }
  ∧ (sendMessageStreamRun (fun _ => none) ["data: hello"]).accumulatedText
      ≠ "hello" := ⟨by decide, by decide⟩

/-- C7 amended: only the document-QA stream decoder falls back to raw
text on structured-decode failure — it appends the stripped **trimmed**
remainder and emits the new cumulative value (when that remainder is
non-empty and not the sentinel); the plain-chat stream decoder drops an
event-data line whose payload fails decoding. -/
theorem c7_amended_raw_fallback (parse : String → Option JsonObj)
    (st : RagStreamState) (cst : ChatStreamState) (line : String)
    (rest : List String)
    (h0 : jsTrim line ≠ "")
    (h1 : jsStartsWith line "data: " = true)
    (h2 : parse (jsTrim (jsSlice line 6)) = none)
    (h3 : jsTrim (jsSlice line 6) ≠ "")
    (h4 : jsTrim (jsSlice line 6) ≠ "[DONE]")
    (h5 : parse (jsSlice line 6) = none) :
    ragProcessLines parse st (line :: rest)
      = ragProcessLines parse
          (ragAppendText st (jsTrim (jsSlice line 6))) rest
  ∧ chatProcessLine parse cst line = cst := by
  have b0 : (jsTrim line == "") = false := by simp [h0]
  have b3 : (jsTrim (jsSlice line 6) == "") = false := by simp [h3]
  have b4 : (jsTrim (jsSlice line 6) == "[DONE]") = false := by simp [h4]
  constructor
  · simp only [ragProcessLines, b0, h1, b3, b4, h2, Bool.false_eq_true,
      if_false, if_true, Bool.not_false, Bool.and_self, ite_true, ite_false]
  · unfold chatProcessLine
    simp only [h1, h5, if_true, ite_true]

/-- Witness for the amended C7: on the line `data: hello` with a failing
parse, the document-QA decoder appends `hello` and the plain-chat decoder
leaves its state untouched. -/
theorem c7_amended_witness :
    ragProcessLines (fun _ => none) ragInit ["data: hello"]
      = ragProcessLines (fun _ => none)
          (ragAppendText ragInit (jsTrim (jsSlice "data: hello" 6))) []
  ∧ chatProcessLine (fun _ => none) ⟨"", []⟩ "data: hello" = ⟨"", []⟩ :=
  c7_amended_raw_fallback (fun _ => none) ragInit ⟨"", []⟩ "data: hello" []
    (by decide) (by decide) rfl (by decide) (by decide) rfl

/-- C8 counterexample: a line arriving in a chunk after the one carrying
the `[DONE]` sentinel still contributes to the accumulated text and
triggers a snapshot emission — the `break` only leaves the per-chunk line
loop, so the decoder does not stop consuming at the sentinel. -/
theorem c8_counterexample :
    ragQueryStreamRun (fun _ => none) ["data: [DONE]", "data: hello"]
      = { accumulatedText := "hello", receivedData := true,
          emits := ["hello"], assistantIdEvents := [], threadIdEvents := [] }
  ∧ ragQueryStream (fun _ => none) ["data: [DONE]", "data: hello"]
      = Except.ok "hello" := ⟨by decide, rfl⟩

/-- C8 amended: the sentinel stops processing of the remaining lines of
the chunk in which it arrives (first conjunct), but the chunk loop keeps
consuming every later chunk regardless of any sentinel seen before
(second conjunct). -/
theorem c8_amended_sentinel_scope (parse : String → Option JsonObj)
    (st : RagStreamState) (line : String) (rest : List String)
    (h0 : jsTrim line ≠ "") (h1 : jsStartsWith line "data: " = true)
    (h2 : jsTrim (jsSlice line 6) = "[DONE]") :
    ragProcessLines parse st (line :: rest) = st
  ∧ ∀ (chunks : List String) (c : String),
      ragQueryStreamRun parse (chunks ++ [c])
        = ragProcessChunk parse (ragQueryStreamRun parse chunks) c := by
  constructor
  · have b0 : (jsTrim line == "") = false := by simp [h0]
    have b2 : (jsTrim (jsSlice line 6) == "[DONE]") = true := by simp [h2]
    simp only [ragProcessLines, b0, h1, b2, Bool.false_eq_true, if_false,
      if_true, ite_true, ite_false]
  · intro chunks c
    unfold ragQueryStreamRun
    rw [List.foldl_append]
    rfl

/-- Witness for the amended C8: on the sentinel line the rest of that
chunk (here another data line) is abandoned. -/
theorem c8_amended_witness :
    ragProcessLines (fun _ => none) ragInit ["data: [DONE]", "data: hello"]
      = ragInit :=
  (c8_amended_sentinel_scope (fun _ => none) ragInit "data: [DONE]"
    ["data: hello"] (by decide) (by decide) (by decide)).1

/-! ### Store-update theorems (claims C2, C3, C5, C6, C9, C10) -/

lemma updateMessagesFrom_split (r : String) (m : Message)
    (hrole : m.role = Role.assistant) :
    ∀ (suf pre : List Message),
      updateMessagesFrom r (pre ++ suf ++ [m]) pre.length (suf ++ [m])
        = suf ++ [appliedUpdate m r] := by
  intro suf
  induction suf with
  | nil =>
    intro pre
    have hc : (m.role == Role.assistant &&
        ((pre.length == (pre ++ [m]).length - 1) ||
         noAssistantAfter (pre ++ [m]) pre.length)) = true := by
      simp [hrole, List.length_append]
    simp only [List.append_nil, List.nil_append, updateMessagesFrom,
      updateMessageAt, hc, if_true, ite_true]
  | cons e suf' ih =>
    intro pre
    simp only [List.cons_append, List.append_assoc, List.singleton_append,
      updateMessagesFrom] at ih ⊢
    have hmsgs : pre ++ e :: (suf' ++ [m]) = (pre ++ [e]) ++ (suf' ++ [m]) := by
      simp
    have hdrop : (pre ++ e :: (suf' ++ [m])).drop (pre.length + 1)
        = suf' ++ [m] := by
      rw [hmsgs]
      have hl : (pre ++ [e]).length = pre.length + 1 := by simp
      rw [← hl, List.drop_left]
    have hafter : noAssistantAfter (pre ++ e :: (suf' ++ [m])) pre.length
        = false := by
      unfold noAssistantAfter
      rw [hdrop]
      simp [hrole]
    have hidx : (pre.length == (pre ++ e :: (suf' ++ [m])).length - 1)
        = false := by
      rw [beq_eq_false_iff_ne]
      simp
    have h1 : updateMessageAt r (pre ++ e :: (suf' ++ [m])) pre.length e
        = e := by
      unfold updateMessageAt
      rw [hidx, hafter]
      simp
    rw [h1]
    have h2 := ih (pre ++ [e])
    simp only [List.append_assoc, List.singleton_append, List.length_append,
      List.length_cons, List.length_nil] at h2
    exact congrArg (fun l => e :: l) h2

lemma updateConversationMessages_concat (r : String) (init : List Message)
    (m : Message) (hrole : m.role = Role.assistant) :
    updateConversationMessages r (init ++ [m])
      = init ++ [appliedUpdate m r] := by
  have h := updateMessagesFrom_split r m hrole init []
  simpa [updateConversationMessages] using h

/-- C2 amended: every snapshot applies exactly one store update (the
fold of one `handleMessageSentUpdate` per emitted snapshot, in order,
first conjunct), and that update replaces the trailing assistant
message's content with the snapshot while setting `isThinking` to
`false` — the flag is cleared on the very first intermediate snapshot,
not kept `true` until the decoder completes. -/
theorem c2_amended_update_replaces_and_clears_thinking
    (c : Conversation) (init : List Message) (m : Message) (snap : String)
    (hmsgs : c.messages = init ++ [m])
    (hrole : m.role = Role.assistant) :
    (∀ (cid : Option String) (convs : List Conversation)
       (snaps : List String) (s : String),
       streamUpdatesFold cid convs (snaps ++ [s])
         = handleMessageSentUpdate cid (streamUpdatesFold cid convs snaps) s)
  ∧ handleMessageSentUpdate (some c.id) [c] snap
      = [{ c with messages := init ++ [appliedUpdate m snap] }]
  ∧ (appliedUpdate m snap).content = snap
  ∧ (appliedUpdate m snap).isThinking = false := by
  refine ⟨?_, ?_, rfl, rfl⟩
  · intro cid convs snaps s
    unfold streamUpdatesFold
    rw [List.foldl_append]
    rfl
  · have ht : isTargetConversation (some c.id) [c] c = true := by
      simp [isTargetConversation]
    unfold handleMessageSentUpdate
    simp only [List.map_cons, List.map_nil, ht, if_true, ite_true]
    rw [hmsgs, updateConversationMessages_concat snap init m hrole]

/-- A fresh user message and its pending assistant placeholder, as the
store holds them right after a submission. -/
def exampleUserMsg : Message :=
  { role := Role.user, content := "hi", isNew := true, timestamp := 0,
    id := "u1" }

def examplePendingAssistant : Message :=
  { role := Role.assistant, content := "Friday is thinking...",
    isThinking := true, timestamp := 1, id := "a1" }

def examplePendingConv : Conversation :=
  { id := "1", title := "hi",
    messages := [exampleUserMsg, examplePendingAssistant] }

/-- Witness for the amended C2 at a concrete pending conversation. -/
theorem c2_amended_witness :
    handleMessageSentUpdate (some "1") [examplePendingConv] "Hel"
      = [{ examplePendingConv with
           messages := [exampleUserMsg,
                        appliedUpdate examplePendingAssistant "Hel"] }]
  ∧ (appliedUpdate examplePendingAssistant "Hel").isThinking = false := by
  have h := c2_amended_update_replaces_and_clears_thinking
    examplePendingConv [exampleUserMsg] examplePendingAssistant "Hel" rfl rfl
  exact ⟨h.2.1, h.2.2.2⟩

/-- C2 counterexample: the very first intermediate snapshot `"Hel"`
(the decoder is not complete) already leaves the pending assistant
message with `isThinking = false`, contradicting the claim that the flag
remains `true` on every intermediate snapshot update. -/
theorem c2_counterexample :
    (handleMessageSentUpdate (some "1") [examplePendingConv] "Hel").map
      (fun c => c.messages.map (fun m => (m.content, m.isThinking)))
      = [[("hi", false), ("Hel", false)]] := by decide

/-- The conversation created by submitting `"hi"` at time 100. -/
def c3ExpectedConv : Conversation :=
  { id := "100", title := "hi",
    messages := newPairMessages "hi" fridayThinking 100, document := none }

/-- C3 evaluation: a submission does append the user message and the
assistant placeholder as one store update before the single remote call
starts, but the placeholder carries `isThinking = false`, because
`handleSubmit` passes `"Friday is thinking..."` while `handleMessageSent`
tests for the stale sentinel `"Unico AI is thinking..."` (third conjunct
shows the sentinel string would have set the flag). -/
theorem c3_placeholder_thinking_flag_evaluation :
    handleSubmit "hi" false none none Tool.chat [] none 100
      = some { storeAfterAppend := [c3ExpectedConv],
               currentIdAfterAppend := some "100",
               calls := [ApiCall.chat "hi"] }
  ∧ (newPairMessages "hi" fridayThinking 100).map
      (fun m => (m.role, m.isThinking))
      = [(Role.user, false), (Role.assistant, false)]
  ∧ (newPairMessages "hi" thinkingSentinel 100).map
      (fun m => (m.role, m.isThinking))
      = [(Role.user, false), (Role.assistant, true)] := by
  refine ⟨by decide, by decide, by decide⟩

/-- C5: mode-selection precedence of the dispatcher.  An attached or
bound document forces the document-QA streaming call regardless of the
selected tool; otherwise web-search mode calls the search operation,
markdown mode wraps the input in the fixed instruction template, and the
default is plain chat; a non-guarded submission starts exactly this one
remote call. -/
theorem c5_dispatch_precedence (af cd : Option String) (tool : Tool)
    (m : String) :
    (∀ f, af = some f → dispatchCall af cd tool m = ApiCall.ragStream m f)
  ∧ (af = none → ∀ f, cd = some f →
       dispatchCall af cd tool m = ApiCall.ragStream m f)
  ∧ (af = none → cd = none → tool = Tool.deepSearch →
       dispatchCall af cd tool m = ApiCall.search m)
  ∧ (af = none → cd = none → tool = Tool.markdown →
       dispatchCall af cd tool m = ApiCall.chat (markdownTemplate m))
  ∧ (af = none → cd = none → tool = Tool.chat →
       dispatchCall af cd tool m = ApiCall.chat m)
  ∧ (jsTrim m ≠ "" →
       ∀ (convs : List Conversation) (cid : Option String) (now : Nat),
         (handleSubmit m false af cd tool convs cid now).map SubmitTrace.calls
           = some [dispatchCall af cd tool m]) := by
  refine ⟨?_, ?_, ?_, ?_, ?_, ?_⟩
  · intro f hf; subst hf; rfl
  · intro ha f hf; subst ha; subst hf; rfl
  · intro ha hc ht; subst ha; subst hc; subst ht; rfl
  · intro ha hc ht; subst ha; subst hc; subst ht; rfl
  · intro ha hc ht; subst ha; subst hc; subst ht; rfl
  · intro hm convs cid now
    have hb : (jsTrim m == "") = false := by simp [hm]
    unfold handleSubmit
    rw [hb]
    simp

/-- Witness for C5: a document overrides markdown mode, and a plain
web-search submission performs exactly the search call. -/
theorem c5_dispatch_precedence_witness :
    dispatchCall (some "doc.pdf") none Tool.markdown "q"
      = ApiCall.ragStream "q" "doc.pdf"
  ∧ (handleSubmit "q" false none none Tool.deepSearch [] none 7).map
      SubmitTrace.calls = some [ApiCall.search "q"] := by
  constructor
  · exact (c5_dispatch_precedence (some "doc.pdf") none Tool.markdown "q").1
      "doc.pdf" rfl
  · have h := (c5_dispatch_precedence none none Tool.deepSearch "q").2.2.2.2.2
      (by decide) [] none 7
    have hd := (c5_dispatch_precedence none none Tool.deepSearch "q").2.2.1
      rfl rfl rfl
    rw [hd] at h
    exact h

/-- A failed assistant answer with its triggering user message. -/
def retryUserMsg : Message :=
  { role := Role.user, content := "q", timestamp := 10, id := "u1" }

def retryFailedAssistant : Message :=
  { role := Role.assistant,
    content := "Sorry, I encountered an error while processing your message. Please try again.",
    isError := true, errorType := some ErrorType.server,
    timestamp := 11, id := "a1" }

def retryConv : Conversation :=
  { id := "1", title := "q", messages := [retryUserMsg, retryFailedAssistant] }

/-- C6 evaluation: retrying the failed assistant message `a1` leaves the
original failed message (and the whole existing transcript) unchanged and
appends a fresh user+assistant pair after it, with the new assistant
pending (`isThinking = true`) — but the handler performs **no** remote
operation (empty `ApiCall` list): the dispatch path is never re-entered,
so the new pending message is never resolved. -/
theorem c6_retry_evaluation :
    handleRetryMessage [retryConv] (some "1") "a1" 50
      = ([{ retryConv with
            messages := retryConv.messages
              ++ newPairMessages "q" thinkingSentinel 50 }],
         some "1", ([] : List ApiCall))
  ∧ (newPairMessages "q" thinkingSentinel 50).map
      (fun m => (m.role, m.isThinking))
      = [(Role.user, false), (Role.assistant, true)] := by
  exact ⟨by decide, by decide⟩

/-- A conversation carrying a bound document. -/
def docConversation : Conversation :=
  { id := "1", title := "t", messages := [], document := some "file.pdf" }

/-- A write oracle that faults exactly on lists without any document
(such as the stripped first attempt) and succeeds otherwise. -/
def quotaWrite : List Conversation → Bool :=
  fun l => l.any (fun c => c.document.isSome)

/-- C9 counterexample: when the first (stripped) write attempt faults,
the reduced attempt persists the conversation with its `document` field
intact (`some "file.pdf"`), contradicting the claim that the reduced
attempt also has document fields stripped. -/
theorem c9_counterexample :
    persistSave quotaWrite [docConversation] = some [docConversation]
  ∧ docConversation.document = some "file.pdf" := ⟨by decide, rfl⟩

/-- C9 amended: the store persists at most 50 conversations with
documents nulled; if that write faults, a reduced subset of at most 25
conversations is attempted **without** document stripping, and a second
fault is swallowed (the save returns without persisting, it never
throws). -/
theorem c9_amended_persistence (writeOk : List Conversation → Bool)
    (convs : List Conversation) :
    (conversationsToSave convs).length ≤ 50
  ∧ (∀ c ∈ conversationsToSave convs, c.document = none)
  ∧ (reducedConversations convs).length ≤ 25
  ∧ (writeOk (conversationsToSave convs) = true →
       persistSave writeOk convs = some (conversationsToSave convs))
  ∧ (writeOk (conversationsToSave convs) = false →
       writeOk (reducedConversations convs) = true →
       persistSave writeOk convs = some (reducedConversations convs))
  ∧ (writeOk (conversationsToSave convs) = false →
       writeOk (reducedConversations convs) = false →
       persistSave writeOk convs = none) := by
  refine ⟨?_, ?_, ?_, ?_, ?_, ?_⟩
  · simp [conversationsToSave, MAX_CONVERSATIONS]
  · intro c hc
    simp only [conversationsToSave, List.mem_map] at hc
    obtain ⟨a, _, rfl⟩ := hc
    rfl
  · simp [reducedConversations, MAX_CONVERSATIONS]
  · intro hw
    simp [persistSave, hw]
  · intro h1 h2
    simp [persistSave, h1, h2]
  · intro h1 h2
    simp [persistSave, h1, h2]

/-- Witness for the amended C9: a successful write persists the stripped
bounded list. -/
theorem c9_amended_persistence_witness :
    persistSave (fun _ => true) [] = some (conversationsToSave []) :=
  (c9_amended_persistence (fun _ => true) []).2.2.2.1 rfl

lemma startsList_append (p l r : List Char) (h : startsList p l = true) :
    startsList p (l ++ r) = true := by
  induction p generalizing l with
  | nil => rfl
  | cons x xs ih =>
    cases l with
    | nil => cases h
    | cons c cs =>
      simp only [List.cons_append, startsList, Bool.and_eq_true] at h ⊢
      exact ⟨h.1, ih cs h.2⟩

lemma containsSeg_of_startsList (p l : List Char)
    (h : startsList p l = true) : containsSeg p l = true := by
  cases l with
  | nil => simpa [containsSeg] using h
  | cons c cs => simp [containsSeg, h]

/-- C10: the in-place update marks the message as an error with
`errorType = server` exactly when the update's lowercased content
contains one of the three fixed phrases (so a successful answer that
happens to contain such a phrase is flagged too); and every error message
produced by the dispatcher's catch branch — whatever the tool name, i.e.
whatever the actual failure cause — matches the heuristic and is thus
surfaced as a `server` error. -/
theorem c10_error_heuristic (m : Message) (snap : String) :
    (((appliedUpdate m snap).isError = true
        ∧ (appliedUpdate m snap).errorType = some ErrorType.server)
      ↔ (jsIncludes (jsToLower snap) "sorry, i encountered an error" = true
         ∨ jsIncludes (jsToLower snap) "failed to" = true
         ∨ jsIncludes (jsToLower snap) "error occurred" = true))
  ∧ ∀ toolName : String,
      isErrorResponse ("Sorry, I encountered an error while processing your "
        ++ toolName ++ ". Please try again.") = true := by
  have hiff : ∀ s : String, isErrorResponse s = true ↔
      (jsIncludes (jsToLower s) "sorry, i encountered an error" = true
       ∨ jsIncludes (jsToLower s) "failed to" = true
       ∨ jsIncludes (jsToLower s) "error occurred" = true) := by
    intro s
    unfold isErrorResponse
    simp [Bool.or_eq_true, or_assoc]
  constructor
  · constructor
    · rintro ⟨hE, _⟩
      refine (hiff snap).1 ?_
      simpa [appliedUpdate] using hE
    · intro h
      have hb := (hiff snap).2 h
      simp [appliedUpdate, hb]
  · intro toolName
    unfold isErrorResponse
    have h1 : jsIncludes
        (jsToLower ("Sorry, I encountered an error while processing your "
          ++ toolName ++ ". Please try again."))
        "sorry, i encountered an error" = true := by
      unfold jsIncludes jsToLower
      have hd : ("Sorry, I encountered an error while processing your "
            ++ toolName ++ ". Please try again.").data
          = ("Sorry, I encountered an error while processing your ").data
            ++ (toolName.data ++ (". Please try again.").data) := by
        rw [data_append, data_append, List.append_assoc]
      rw [hd, List.map_append]
      apply containsSeg_of_startsList
      apply startsList_append
      decide
    rw [h1]
    simp

end Friday
